import Mathlib

/-!
Verification development for the sc3 clock/scheduler and OSC responder
subsystems (src/clock.py and src/sc3/base/responsedefs.py).

Python values are shallowly embedded: numbers become `Int`/`Rat` (floats are
idealized as rationals, with the one integer truncation performed by `int()`
made explicit), fallible Python code returns `Except PyErr`, and the mutable
scheduler/dispatcher state is passed explicitly.  Bounded `while` loops are
embedded with an explicit fuel argument that is instantiated at the loop's
iteration bound at every call site.
-/

/-- Python exception kinds that the embedded code can raise. -/
inductive PyErr where
  | typeError
  | keyError
  | valueError
  | indexError
  | invalidScheduleTime
deriving DecidableEq, Repr

/-- Embedded Python values as they appear in task results, OSC message
arguments and argument templates: ints, floats (idealized as `Rat`), bools,
strings, `None`, callables (identified by an id, compared by identity) and
any other object (by id). -/
inductive PyVal where
  | vint (n : Int)
  | vfloat (q : Rat)
  | vbool (b : Bool)
  | vstr (s : String)
  | vnone
  | vcallable (id : Nat)
  | vother (id : Nat)
deriving DecidableEq, Repr

/-- The numeric value of a Python number, if the value is one
(`bool` is a subclass of `int` in Python, so `True`/`False` count). -/
def pyNumVal : PyVal → Option Rat
  | .vint n => some (n : Rat)
  | .vfloat q => some q
  | .vbool b => some (if b then 1 else 0)
  | _ => none

/-- Python `==` on the embedded value domain: numbers compare by value across
int/float/bool, strings by content, callables and other objects by identity. -/
def pyEq (a b : PyVal) : Bool :=
  match pyNumVal a, pyNumVal b with
  | some x, some y => x == y
  | _, _ =>
    match a, b with
    | .vstr s, .vstr t => s == t
    | .vnone, .vnone => true
    | .vcallable i, .vcallable j => i == j
    | .vother i, .vother j => i == j
    | _, _ => false

/-- Python `isinstance(x, (int, float))`: true for ints, floats and bools
(`bool` is a subclass of `int`). -/
def pyIsNumeric : PyVal → Bool
  | .vint _ => true
  | .vfloat _ => true
  | .vbool _ => true
  | _ => false

/-- The guard used by `SystemClock.run` (src/clock.py line 258):
`isinstance(delta, (int, float)) and not isinstance(delta, bool)`. -/
def pyIsNumericNotBool : PyVal → Bool
  | .vint _ => true
  | .vfloat _ => true
  | _ => false

/-- Numeric value of a Python number, with 0 as a don't-care default. -/
def pyNum (v : PyVal) : Rat := (pyNumVal v).getD 0

/-- A scheduled task object.  `plain id` is an object with no `__lt__`
(comparing two of them raises `TypeError`); `cmp v` is an object that
compares by the value `v` (as an `int` would). -/
inductive PyTask where
  | plain (id : Nat)
  | cmp (v : Nat)
deriving DecidableEq, Repr

/-- Python `<` on task objects: defined only when both sides are comparable,
otherwise it raises `TypeError`. -/
def pyTaskLt : PyTask → PyTask → Except PyErr Bool
  | .cmp a, .cmp b => .ok (decide (a < b))
  | _, _ => .error .typeError

/-- A Python float restricted to the values the scheduler manipulates:
a finite value (idealized as a rational) or positive infinity. -/
inductive PFloat where
  | fin (q : Rat)
  | inf
deriving DecidableEq, Repr

/-- Float addition: anything plus infinity is infinity. -/
def padd : PFloat → PFloat → PFloat
  | .fin a, .fin b => .fin (a + b)
  | _, _ => .inf

/-- Float `<`: infinity is greater than every finite value. -/
def pfLt : PFloat → PFloat → Bool
  | .fin a, .fin b => decide (a < b)
  | .fin _, .inf => true
  | .inf, _ => false

/-- Python tuple comparison `(secs, task) < (secs', task')` as performed by
`heapq` inside `PriorityQueue.put`: the first components are compared with
`==` first; on a tie the task objects themselves are compared with `<`,
which can raise `TypeError` (src/clock.py lines 83 and 189 mark this very
comparison as a known bug). -/
def entryLt (a b : PFloat × PyTask) : Except PyErr Bool :=
  if a.1 = b.1 then pyTaskLt a.2 b.2 else .ok (pfLt a.1 b.1)

/-- `heapq._siftdown(heap, startpos, pos)`: bubble `newitem` up from `pos`
toward `startpos`, comparing against parents.  `fuel` bounds the loop; the
parent position `(pos - 1) / 2` is strictly below `pos`, so any
`fuel > pos` is enough for the loop to finish on its own. -/
def siftdown {α : Type} (cmp : α → α → Except PyErr Bool) (newitem : α) :
    Nat → List α → Nat → Nat → Except PyErr (List α)
  | 0, heap, _, pos => .ok (heap.set pos newitem)
  | fuel + 1, heap, startpos, pos =>
    if startpos < pos then
      match heap.get? ((pos - 1) / 2) with
      | none => .ok (heap.set pos newitem)
      | some parent =>
        (cmp newitem parent).bind fun b =>
          if b then
            siftdown cmp newitem fuel (heap.set pos parent) startpos ((pos - 1) / 2)
          else .ok (heap.set pos newitem)
    else .ok (heap.set pos newitem)

/-- `heapq.heappush(heap, item)`: append then sift up from the last slot. -/
def heappush {α : Type} (cmp : α → α → Except PyErr Bool) (heap : List α)
    (item : α) : Except PyErr (List α) :=
  siftdown cmp item (heap.length + 1) (heap ++ [item]) 0 heap.length

/-- `SystemClock._sched_add(secs, task)` (src/clock.py lines 183-197),
restricted to its queue effect: `self._task_queue.put((secs, task))`, i.e. a
heap push of the tuple `(secs, task)` under Python tuple comparison.  The
peek/notify logic around the push does not touch the queue contents. -/
def sched_add (secs : PFloat) (task : PyTask) (q : List (PFloat × PyTask)) :
    Except PyErr (List (PFloat × PyTask)) :=
  heappush entryLt q (secs, task)

/-- `SystemClock.sched(delta, item)` (src/clock.py lines 277-287): samples
`elapsed_time()` (passed here as the parameter `elapsed`, always a finite
float), adds `delta`, silently returns when the sum is `inf`, otherwise
inserts via `_sched_add`. -/
def sched (elapsed delta : PFloat) (item : PyTask)
    (q : List (PFloat × PyTask)) : Except PyErr (List (PFloat × PyTask)) :=
  let seconds := padd elapsed delta
  if seconds = .inf then .ok q
  else sched_add seconds item q

/-- `SystemClock.sched_abs(time, item)` (src/clock.py lines 289-295): raises
on `inf` (the spec's `InvalidScheduleTime`), otherwise inserts. -/
def sched_abs (time : PFloat) (item : PyTask)
    (q : List (PFloat × PyTask)) : Except PyErr (List (PFloat × PyTask)) :=
  if time = .inf then .error .invalidScheduleTime
  else sched_add time item q

/-- `SystemClock._SECONDS_TO_OSC = 4294967296.` — `pow(2,32)`, exactly
representable as a double (comment at src/clock.py line 65). -/
def SECONDS_TO_OSC : Rat := 4294967296

/-- `SystemClock._OSC_TO_SECONDS` — documented as `1/pow(2,32)`
(comment at src/clock.py line 67). -/
def OSC_TO_SECONDS : Rat := 1 / 4294967296

/-- Python `int(x)` on a float: truncation toward zero. -/
def pyTrunc (q : Rat) : Int := if 0 ≤ q then ⌊q⌋ else ⌈q⌉

/-- `SystemClock.elapsed_time_to_osc(elapsed)` (src/clock.py line 172):
`int(elapsed * _SECONDS_TO_OSC) + _elapsed_osc_offset`, with the float
arithmetic idealized over the rationals and the truncation kept. -/
def elapsed_time_to_osc (offset : Int) (elapsed : Rat) : Int :=
  pyTrunc (elapsed * SECONDS_TO_OSC) + offset

/-- `SystemClock.osc_to_elapsed_time(osctime)` (src/clock.py line 176):
`float(osctime - _elapsed_osc_offset) * _OSC_TO_SECONDS`, idealized over the
rationals. -/
def osc_to_elapsed_time (offset : Int) (osctime : Int) : Rat :=
  ((osctime - offset : Int) : Rat) * OSC_TO_SECONDS

/-- The observable outcome of resuming one scheduled task inside
`SystemClock.run` (src/clock.py lines 252-266): the call
`getattr(task, 'next', task)()` either returns a value, raises
`StopIteration` (with `nested` telling whether `len(inspect.trace()) > 2`,
i.e. whether the exhaustion happened inside another resumption), or raises
some other exception (tagged by a code). -/
inductive RunOutcome where
  | val (v : PyVal)
  | stopIter (nested : Bool)
  | exc (code : Nat)
deriving DecidableEq, Repr

/-- One iteration of the "perform all events that are ready" loop of
`SystemClock.run` (src/clock.py lines 245-266) for an entry popped with
scheduled time `schedTime`, while the loop's wall-clock sample is `now`.
Returns the re-insertion time passed to `_sched_add` (if any) together with
the number of reports emitted by `traceback.print_exception`:

* a returned value that is an int or float but not a bool re-inserts the
  task at `sched_time + delta`;
* any other returned value does not re-insert;
* `StopIteration` at top level is absorbed silently;
* a nested `StopIteration` is re-raised, caught by the outer
  `except Exception` handler, and printed once;
* any other exception is caught by the outer handler and printed once. -/
def runEntryStep (schedTime now : Rat) (outcome : RunOutcome) :
    Option Rat × Nat :=
  match outcome with
  | .val v =>
    (if pyIsNumericNotBool v then some (schedTime + pyNum v) else none, 0)
  | .stopIter false => (none, 0)
  | .stopIter true => (none, 1)
  | .exc _ => (none, 1)

/-- An outcome that reaches the outer `except Exception` handler. -/
def isFailing : RunOutcome → Bool
  | .stopIter true => true
  | .exc _ => true
  | _ => false

/-- The whole "perform all events that are ready" pass of `SystemClock.run`
over the list of currently due entries, in queue order: collects the
re-insertion times and counts the reports.  The loop body never lets an
exception escape, so the fold always consumes the entire list. -/
def processDue (now : Rat) : List (Rat × RunOutcome) → List Rat × Nat
  | [] => ([], 0)
  | (st, o) :: rest =>
    let r := runEntryStep st now o
    let acc := processDue now rest
    ((match r.1 with | some t => [t] | none => []) ++ acc.1, r.2 + acc.2)

/-- A responder func proxy as the dispatcher sees it: its identity and the
OSC path it registers under (keys are abstracted to naturals). -/
structure Proxy where
  pid : Nat
  path : Nat
deriving DecidableEq, Repr

/-- Insertion-ordered association list lookup (a Python `dict` read). -/
def assocGet {β : Type} (l : List (Nat × β)) (k : Nat) : Option β :=
  match l.find? (fun kv => kv.1 == k) with
  | some kv => some kv.2
  | none => none

/-- Python `dict` assignment: replace in place when the key exists
(keeping its position), append at the end otherwise. -/
def assocSet {β : Type} : List (Nat × β) → Nat → β → List (Nat × β)
  | [], k, v => [(k, v)]
  | (k₁, v₁) :: rest, k, v =>
    if k₁ = k then (k, v) :: rest else (k₁, v₁) :: assocSet rest k v

/-- Python `del d[k]` restricted to the success case: drop the key. -/
def assocErase {β : Type} : List (Nat × β) → Nat → List (Nat × β)
  | [], _ => []
  | (k₁, v₁) :: rest, k =>
    if k₁ = k then rest else (k₁, v₁) :: assocErase rest k

/-- The state of an `AbstractWrappingDispatcher`
(src/sc3/base/responsedefs.py lines 83-136): `wrapped_funcs` maps each
registered proxy (by id) to its wrapped function (by id), `active` maps each
key to the list of wrapped functions registered under it, in registration
order, and `registered` records whether the dispatcher is attached to the
upstream message source (`register`/`unregister`). -/
structure WDState where
  wrappedFuncs : List (Nat × Nat)
  active : List (Nat × List Nat)
  registered : Bool
deriving DecidableEq, Repr

/-- `wrap_func` creates a fresh wrapper object per proxy; wrappers are
distinct for distinct proxies, so the proxy id serves as the wrapper id. -/
def wrapFuncId (p : Proxy) : Nat := p.pid

/-- `AbstractWrappingDispatcher.add(func_proxy)` (src/sc3/base/responsedefs.py
lines 92-104): store the wrapped func, append it to `active[key]` for each
key (creating the key on `KeyError`), and `register()` if not yet
registered.  The `NotificationCenter.register` call touches only the
external notification collaborator, not this state. -/
def wd_add (p : Proxy) (s : WDState) : WDState :=
  let func := wrapFuncId p
  let wf := assocSet s.wrappedFuncs p.pid func
  let act :=
    match assocGet s.active p.path with
    | some lst => assocSet s.active p.path (lst ++ [func])
    | none => s.active ++ [(p.path, [func])]
  ⟨wf, act, true⟩

/-- Python `list.remove(x)`: drop the first occurrence, `ValueError` when
absent. -/
def listRemove (l : List Nat) (x : Nat) : Except PyErr (List Nat) :=
  if x ∈ l then .ok (l.erase x) else .error .valueError

/-- `AbstractWrappingDispatcher.remove(func_proxy)`
(src/sc3/base/responsedefs.py lines 106-114), in source order: the
`NotificationCenter.unregister` call (external collaborator, no state
here), `keys = self.get_keys_for_func_proxy(func_proxy)` (for the OSC
dispatcher this is `[func_proxy.path]`), `func = self.wrapped_funcs
[func_proxy]` (raises `KeyError` when the proxy is not registered), then
`self.active[key].remove(func)` for each key, `del self.wrapped_funcs
[func_proxy]`, and finally `unregister()` when `len(self.active) == 0`
(the number of keys in the mapping). -/
def wd_remove (p : Proxy) (s : WDState) : Except PyErr WDState :=
  match assocGet s.wrappedFuncs p.pid with
  | none => .error .keyError
  | some func =>
    match assocGet s.active p.path with
    | none => .error .keyError
    | some lst =>
      (listRemove lst func).bind fun lst₁ =>
        let act := assocSet s.active p.path lst₁
        let wf := assocErase s.wrappedFuncs p.pid
        .ok ⟨wf, act, if act.length = 0 then false else s.registered⟩

/-- A wrapped callback as dispatched by `OSCMessageDispatcher.__call__`:
its wrapper id, plus the effect its user function has on the registry while
it runs — `frees = some pid` means the callback frees the proxy `pid`
during its own invocation (exactly what `one_shot` wrappers do), which runs
`AbstractWrappingDispatcher.remove` and hence `active[key].remove(func)` on
the very list being iterated. -/
structure CB where
  id : Nat
  frees : Option Nat
deriving DecidableEq, Repr

/-- `list.remove` by wrapper id on the callback list (first occurrence). -/
def cbEraseById : List CB → Nat → List CB
  | [], _ => []
  | c :: rest, fid => if c.id = fid then rest else c :: cbEraseById rest fid

/-- The `for func in self.active[msg[0]]:` loop of
`OSCMessageDispatcher.__call__` (src/sc3/base/responsedefs.py lines
363-366) with CPython `list_iterator` semantics: iteration is by index over
the live list, so a removal performed by the current callback shifts later
elements down and the iterator does not revisit the vacated index.  `fuel`
bounds the loop; the list never grows, so the initial length suffices.
Returns the wrapper ids invoked, in invocation order. -/
def dispatchLoop : Nat → List CB → Nat → List Nat
  | 0, _, _ => []
  | fuel + 1, lst, i =>
    match lst.get? i with
    | none => []
    | some f =>
      let rest :=
        match f.frees with
        | some fid => cbEraseById lst fid
        | none => lst
      f.id :: dispatchLoop fuel rest (i + 1)

/-- `OSCMessageDispatcher.__call__(msg, ...)` (src/sc3/base/responsedefs.py
lines 363-366): exact lookup of `msg[0]` in `active`, then invoke every
wrapped func in the stored list in order, with the live-list iteration
of `dispatchLoop`. -/
def oscDispatcherCall (active : List (Nat × List CB)) (msgKey : Nat) :
    List Nat :=
  match assocGet active msgKey with
  | some funcs => dispatchLoop funcs.length funcs 0
  | none => []

/-- The slot loop of `OSCArgsMatcher.__call__` (src/sc3/base/responsedefs.py
lines 331-336) walking `self.arg_template` against `args = msg[1:]` in
lockstep: a `None` slot is skipped without reading `args[i]` (the `and`
short-circuits); any other slot reads `args[i]` (raising `IndexError` past
the end) and compares it with Python `!=` — there is no callable/predicate
case.  Returns whether the wrapped func is invoked. -/
def oscArgsLoop : List PyVal → List PyVal → Except PyErr Bool
  | [], _ => .ok true
  | item :: rest, args =>
    if item = .vnone then oscArgsLoop rest args.tail
    else
      match args.head? with
      | none => .error .indexError
      | some a => if pyEq item a then oscArgsLoop rest args.tail else .ok false

/-- `OSCArgsMatcher.__call__(msg, ...)` (src/sc3/base/responsedefs.py lines
326-336): match the template against `msg[1:]`; on success the wrapped
func fires. -/
def oscArgsMatcherCall (arg_template msg : List PyVal) : Except PyErr Bool :=
  oscArgsLoop arg_template (msg.drop 1)

/-- Modelled from the spec (section 4.4), for comparison with
`oscArgsMatcherCall`: "A registration with a positional-argument template
matches only if every non-null template slot equals (or, if the slot is
itself a predicate, is satisfied by) the corresponding incoming argument;
the template may be shorter than the incoming argument list."  `interp`
gives the boolean result of applying the callable with id `p` to an
argument. -/
def argsMatchSpec (interp : Nat → PyVal → Bool) :
    List PyVal → List PyVal → Bool
  | [], _ => true
  | .vnone :: rest, args => argsMatchSpec interp rest args.tail
  | .vcallable p :: rest, args =>
    match args.head? with
    | some a => interp p a && argsMatchSpec interp rest args.tail
    | none => false
  | item :: rest, args =>
    match args.head? with
    | some a => pyEq item a && argsMatchSpec interp rest args.tail
    | none => false

/-- The state of an `AbstractResponderFunc` handle together with its
dispatcher and the reset-signal (`CmdPeriod`) subscription list
(src/sc3/base/responsedefs.py lines 139-231). -/
structure RespState where
  enabled : Bool
  permanent : Bool
  disp : WDState
  cmdPeriod : List Nat
deriving DecidableEq, Repr

/-- Modelled from the spec (section 6, the `CmdPeriod` source file is not
under src/): the global reset signal's `subscribe` appends the callback. -/
def cmdPeriodAdd (pid : Nat) (l : List Nat) : List Nat := l ++ [pid]

/-- Modelled from the spec (section 6, the `CmdPeriod` source file is not
under src/): `unsubscribe` removes the callback, tolerating absence. -/
def cmdPeriodRemove (pid : Nat) (l : List Nat) : List Nat := l.erase pid

/-- `AbstractResponderFunc.enable()` (src/sc3/base/responsedefs.py lines
187-194): guarded by `if not self.enabled`; subscribes to the reset signal
unless permanent, registers with the dispatcher, sets `enabled`. -/
def resp_enable (p : Proxy) (s : RespState) : RespState :=
  if s.enabled then s
  else
    { s with
      cmdPeriod :=
        if ¬s.permanent then cmdPeriodAdd p.pid s.cmdPeriod else s.cmdPeriod
      disp := wd_add p s.disp
      enabled := true }

/-- `AbstractResponderFunc.disable()` (src/sc3/base/responsedefs.py lines
196-201), with no already-disabled guard: unsubscribes from the reset
signal unless permanent, then calls `self.dispatcher.remove(self)` (which
raises `KeyError` when the proxy is not in `wrapped_funcs`), then clears
`enabled`. -/
def resp_disable (p : Proxy) (s : RespState) : Except PyErr RespState :=
  let cp :=
    if ¬s.permanent then cmdPeriodRemove p.pid s.cmdPeriod else s.cmdPeriod
  (wd_remove p s.disp).map fun d =>
    { s with cmdPeriod := cp, disp := d, enabled := false }

/-- A fresh, never-enabled, non-permanent responder over an empty
dispatcher. -/
def respFresh : RespState := ⟨false, false, ⟨[], [], false⟩, []⟩

/-- Binding of positional arguments against the signature
`OscFunc.__init__(self, func, path, src_id=None, *, recv_port=None,
arg_template=None, dispatcher=None)` (src/sc3/base/responsedefs.py lines
484-485): at most 3 positional parameters exist (`func`, `path`, `src_id`);
fewer than 2 or more than 3 positional arguments raise `TypeError` before
the body runs. -/
def oscFuncInitBind (posArgs : List PyVal) : Except PyErr Unit :=
  if posArgs.length < 2 then .error .typeError
  else if posArgs.length > 3 then .error .typeError
  else .ok ()

/-- `cls.default_matching_dispatcher`, an opaque object. -/
def defaultMatchingDispatcher : PyVal := .vcallable 99

/-- `OscFunc.matching(func, path, src_id, recv_port, arg_template)`
(src/sc3/base/responsedefs.py lines 500-517): executes `cls(func, path,
src_id, recv_port, arg_template, cls.default_matching_dispatcher)` — six
positional arguments.  `regs` is the set of registered responders
(`_all_func_proxies` plus dispatcher registrations), which `__init__` would
extend via `enable()`; when argument binding fails the body never runs and
the registrations are untouched. -/
def oscFuncMatching (regs : List Nat)
    (func path srcId recvPort argTemplate : PyVal) :
    Except PyErr Unit × List Nat :=
  match oscFuncInitBind
      [func, path, srcId, recvPort, argTemplate, defaultMatchingDispatcher] with
  | .error e => (.error e, regs)
  | .ok u => (.ok u, regs ++ [0])

/-- Helper: `processDue` distributes over list append — the perform pass
never stops early, so processing a concatenation concatenates the
re-insertions and adds the report counts. -/
theorem processDue_append (now : Rat) (xs ys : List (Rat × RunOutcome)) :
    processDue now (xs ++ ys)
      = ((processDue now xs).1 ++ (processDue now ys).1,
         (processDue now xs).2 + (processDue now ys).2) := by
  induction xs with
  | nil => simp [processDue]
  | cons e rest ih =>
    obtain ⟨st, o⟩ := e
    simp [processDue, ih, List.append_assoc, Nat.add_assoc]

/-- Claim C1: two entries with the same scheduled time make the heap inside
`SystemClock._sched_add` compare the task objects themselves: with
non-comparable tasks the push raises `TypeError`, and with comparable tasks
the later-inserted smaller task ends up at the head of the queue ahead of
the earlier one — insertion order is not preserved on ties.  (The source
itself marks this as a bug at src/clock.py lines 83 and 189.) -/
theorem sched_add_equal_time_compares_tasks :
    (sched_add (.fin 1) (.plain 0) []).bind (sched_add (.fin 1) (.plain 1))
      = .error .typeError
    ∧ (sched_add (.fin 1) (.cmp 2) []).bind (sched_add (.fin 1) (.cmp 1))
      = .ok [(.fin 1, .cmp 1), (.fin 1, .cmp 2)] := by
  constructor <;> rfl

/-- Claim C2: converting an elapsed time to the OSC fixed-point timestamp
and back recovers it to within `2^-32` seconds, for any nonnegative elapsed
time and any offset, under the `int()` truncation the code performs. -/
theorem osc_time_round_trip (offset : Int) (t : Rat) (h : 0 ≤ t) :
    |osc_to_elapsed_time offset (elapsed_time_to_osc offset t) - t|
      ≤ 1 / 4294967296 := by
  have hS : (0:Rat) ≤ SECONDS_TO_OSC := by norm_num [SECONDS_TO_OSC]
  have hx : (0:Rat) ≤ t * SECONDS_TO_OSC := mul_nonneg h hS
  have h1 : ((⌊t * SECONDS_TO_OSC⌋ : Int) : Rat) ≤ t * SECONDS_TO_OSC :=
    Int.floor_le _
  have h2 : t * SECONDS_TO_OSC < ⌊t * SECONDS_TO_OSC⌋ + 1 :=
    Int.lt_floor_add_one _
  simp only [osc_to_elapsed_time, elapsed_time_to_osc, pyTrunc, if_pos hx,
    add_sub_cancel_right]
  rw [abs_le]
  simp only [SECONDS_TO_OSC, OSC_TO_SECONDS] at h1 h2 ⊢
  constructor <;> [linarith; linarith]

/-- Witness for C2 at `offset = 5`, `t = 3/2`. -/
theorem osc_time_round_trip_witness :
    (0 : Rat) ≤ 3 / 2
    ∧ |osc_to_elapsed_time 5 (elapsed_time_to_osc 5 (3 / 2)) - 3 / 2|
        ≤ 1 / 4294967296 :=
  ⟨by norm_num, osc_time_round_trip 5 (3 / 2) (by norm_num)⟩

/-- Counterexample for C3 as stated: Python booleans are numeric
(`isinstance(True, int)` holds, bool being a subclass of int), yet the run
loop's guard `not isinstance(delta, bool)` excludes them, so a task whose
resumption returns `True` is not re-inserted. -/
theorem run_loop_bool_delta_not_reinserted :
    pyIsNumeric (.vbool true) = true
    ∧ (runEntryStep 0 0 (.val (.vbool true))).1 = none := by
  constructor <;> rfl

/-- Claim C3 (amended: "numeric" excludes booleans): a resumption result
that is an int or float (and not a bool) re-inserts the task at the entry's
original `sched_time + delta`, independently of the wall-clock sample
`now`; any other result, and termination via `StopIteration`, leaves the
task out of the queue. -/
theorem run_loop_reinserts_at_sched_time_plus_delta
    (st now now₂ : Rat) (v w : PyVal)
    (hv : pyIsNumericNotBool v = true)
    (hw : pyIsNumericNotBool w = false) :
    (runEntryStep st now (.val v)).1 = some (st + pyNum v)
    ∧ runEntryStep st now (.val v) = runEntryStep st now₂ (.val v)
    ∧ (runEntryStep st now (.val w)).1 = none
    ∧ (runEntryStep st now (.stopIter false)).1 = none
    ∧ (runEntryStep st now (.stopIter true)).1 = none := by
  refine ⟨?_, rfl, ?_, rfl, rfl⟩
  · simp [runEntryStep, hv]
  · simp [runEntryStep, hw]

/-- Witness for C3's amended theorem at `sched_time = 2`, wall-clock samples
`5` and `7`, result `3`, non-numeric result `None`. -/
theorem run_loop_reinserts_witness :
    pyIsNumericNotBool (.vint 3) = true
    ∧ pyIsNumericNotBool .vnone = false
    ∧ ((runEntryStep 2 5 (.val (.vint 3))).1 = some (2 + pyNum (.vint 3))
       ∧ runEntryStep 2 5 (.val (.vint 3)) = runEntryStep 2 7 (.val (.vint 3))
       ∧ (runEntryStep 2 5 (.val .vnone)).1 = none
       ∧ (runEntryStep 2 5 (.stopIter false)).1 = none
       ∧ (runEntryStep 2 5 (.stopIter true)).1 = none) :=
  ⟨rfl, rfl,
    run_loop_reinserts_at_sched_time_plus_delta 2 5 7 (.vint 3) .vnone rfl rfl⟩

/-- Claim C4: when `elapsed_time() + delta` is positive infinity,
`SystemClock.sched` returns normally with the queue untouched, while
`SystemClock.sched_abs` at infinity raises and inserts nothing. -/
theorem sched_inf_drops_sched_abs_inf_raises
    (elapsed delta : PFloat) (task task₂ : PyTask)
    (q q₂ : List (PFloat × PyTask))
    (h : padd elapsed delta = .inf) :
    sched elapsed delta task q = .ok q
    ∧ sched_abs .inf task₂ q₂ = .error .invalidScheduleTime := by
  constructor
  · simp [sched, h]
  · rfl

/-- Witness for C4 with a finite elapsed time and an infinite delta. -/
theorem sched_inf_witness :
    padd (.fin 0) .inf = .inf
    ∧ (sched (.fin 0) .inf (.plain 0) [] = .ok []
       ∧ sched_abs .inf (.plain 1) [] = .error .invalidScheduleTime) :=
  ⟨rfl,
    sched_inf_drops_sched_abs_inf_raises (.fin 0) .inf (.plain 0) (.plain 1)
      [] [] rfl⟩

/-- Claim C5: a due entry whose execution reaches the outer
`except Exception` handler (any exception other than a top-level
`StopIteration`) is reported exactly once, and the perform pass still
processes every entry before and after it exactly as it would on its own —
a failing task never halts the loop. -/
theorem run_loop_isolates_task_failures (now : Rat)
    (pre post : List (Rat × RunOutcome)) (st : Rat) (o : RunOutcome)
    (h : isFailing o = true) :
    processDue now (pre ++ (st, o) :: post)
      = ((processDue now pre).1 ++ (processDue now post).1,
         (processDue now pre).2 + 1 + (processDue now post).2) := by
  have hstep : runEntryStep st now o = (none, 1) := by
    cases o with
    | val v => simp [isFailing] at h
    | stopIter b => cases b with
      | false => simp [isFailing] at h
      | true => rfl
    | exc c => rfl
  rw [processDue_append]
  simp [processDue, hstep, Nat.add_assoc]

/-- Witness for C5: one failing entry between two healthy ones. -/
theorem run_loop_isolates_witness :
    isFailing (.exc 0) = true
    ∧ processDue 0 ([(1, .val (.vint 2))] ++ (3, .exc 0) :: [(4, .stopIter false)])
        = ((processDue 0 [(1, .val (.vint 2))]).1
             ++ (processDue 0 [(4, .stopIter false)]).1,
           (processDue 0 [(1, .val (.vint 2))]).2 + 1
             + (processDue 0 [(4, .stopIter false)]).2) :=
  ⟨rfl,
    run_loop_isolates_task_failures 0 [(1, .val (.vint 2))]
      [(4, .stopIter false)] 3 (.exc 0) rfl⟩

/-- Claim C6: adding one registration and removing it again leaves the key
in `active` mapped to the empty list, and the dispatcher still attached
(`registered = true`) — `remove` never deletes emptied keys, so its
`len(self.active) == 0` check can never fire and the upstream detach never
happens. -/
theorem wrapping_dispatcher_remove_keeps_empty_key :
    wd_remove ⟨1, 7⟩ (wd_add ⟨1, 7⟩ ⟨[], [], false⟩)
      = .ok ⟨[], [(7, [])], true⟩ := by rfl

/-- Claim C7: with two callbacks registered under the same exact key, a
matching message dispatched while the first callback frees its own proxy
(exactly what `one_shot` does) invokes only the first callback — the
in-place `list.remove` shifts the second callback into the vacated index
and the iterator skips it.  Without the mid-dispatch free, both fire in
registration order. -/
theorem osc_dispatch_midfree_skips_remaining :
    oscDispatcherCall [(7, [⟨1, some 1⟩, ⟨2, none⟩])] 7 = [1]
    ∧ oscDispatcherCall [(7, [⟨1, none⟩, ⟨2, none⟩])] 7 = [1, 2] := by
  constructor <;> rfl

/-- Claim C8: `OSCArgsMatcher` compares a callable template slot with plain
`!=` instead of applying it, so a registration whose predicate slot is
satisfied by the incoming argument does not fire, although the spec's
matching rule (and the class's own docstring) says it must. -/
theorem osc_args_matcher_ignores_predicates :
    oscArgsMatcherCall [.vcallable 0] [.vstr "/x", .vint 5] = .ok false
    ∧ argsMatchSpec (fun _ _ => true) [.vcallable 0] [.vint 5] = true := by
  constructor <;> rfl

/-- Counterexample for C9 as stated: enabling a responder, disabling it,
then calling `disable()` again raises `KeyError` (from
`self.wrapped_funcs[func_proxy]` inside the dispatcher's `remove`) instead
of being a no-op. -/
theorem responder_second_disable_raises :
    (resp_disable ⟨1, 7⟩ (resp_enable ⟨1, 7⟩ respFresh)).bind
        (resp_disable ⟨1, 7⟩)
      = .error .keyError := by rfl

/-- Claim C9 (amended): `disable()` on a handle that is not registered with
its dispatcher (as after a previous `disable()`) raises `KeyError` rather
than acting as an idempotent no-op; the registry itself is not modified by
the failing call. -/
theorem responder_disable_on_unregistered_raises
    (p : Proxy) (s : RespState)
    (h : assocGet s.disp.wrappedFuncs p.pid = none) :
    resp_disable p s = .error .keyError := by
  simp [resp_disable, wd_remove, h, Except.map]

/-- Witness for C9's amended theorem: a fresh (hence disabled) responder. -/
theorem responder_disable_witness :
    assocGet respFresh.disp.wrappedFuncs 1 = none
    ∧ resp_disable ⟨1, 7⟩ respFresh = .error .keyError :=
  ⟨rfl, responder_disable_on_unregistered_raises ⟨1, 7⟩ respFresh rfl⟩

/-- Claim C10: every call to `OscFunc.matching` passes six positional
arguments to a constructor that accepts at most three positionally
(`recv_port`, `arg_template` and `dispatcher` are keyword-only), so binding
raises `TypeError` before `__init__` runs and no responder is registered. -/
theorem osc_func_matching_raises_type_error (regs : List Nat)
    (func path srcId recvPort argTemplate : PyVal) :
    oscFuncMatching regs func path srcId recvPort argTemplate
      = (.error .typeError, regs) := by rfl
